import Mathlib

/-
  Verification development for the `questionnaire` repository.

  Shallow embedding of:
    - src/questionnaire/types.py       (Identifier, InputT)
    - src/questionnaire/conditions.py  (DefaultCondition, ComparisonCondition)
    - src/questionnaire/graph.py       (Vertex, RootedDirectedGraph, BFSIterator,
                                        PrompterIterator, Prompter, find_path, evaluate)

  Python exceptions are modelled with an explicit error type `PyErr`;
  functions that can raise return `Except PyErr _` (or pair the partially
  mutated state with an `Option PyErr`, for methods that mutate `self`
  before raising). Machine-level caveats: Python ints are arbitrary
  precision (modelled as `Int`); Python string comparison is lexicographic
  by code point, as is Lean's `String` order.
-/

set_option autoImplicit false

namespace Questionnaire

/-- `Identifier = Union[int, str]` from src/questionnaire/types.py. -/
inductive Identifier where
  | int (n : Int)
  | str (s : String)
deriving DecidableEq, Repr

/-- `InputT = Union[int, float, str, List[...]]` from src/questionnaire/types.py,
restricted to the scalar int and str members: no claim involves float or list
answers, and Lean has no faithful executable model of Python floats. -/
inductive Value where
  | int (n : Int)
  | str (s : String)
deriving DecidableEq, Repr

/-- Exceptions the embedded code can raise: `InvalidGraphState(msg)` (from the
repository's errors module, carrying its message string), Python's builtin
`TypeError` (raised by an ordering comparison on incompatible types) and
`KeyError` (raised by a missing dict key in `PrompterIterator.__next__`). -/
inductive PyErr where
  | invalidGraphState (msg : String)
  | typeError
  | keyError
deriving DecidableEq, Repr

/-- `ComparisonCondition.Operator` from src/questionnaire/conditions.py. -/
inductive Operator where
  | equal
  | not_equal
  | less_than
  | less_than_or_equal
  | greater_than
  | greater_than_or_equal
deriving DecidableEq, Repr

/-- The `Condition` class hierarchy from src/questionnaire/conditions.py:
`DefaultCondition` (evaluates to `True` on any input) and
`ComparisonCondition(op, compare_to)`. -/
inductive Condition where
  | default
  | comparison (op : Operator) (compare_to : Value)
deriving DecidableEq, Repr

/-- Python `==` on int/str values: equal only within the same type; a
mixed-type `==` silently returns `False` (it does not raise). -/
def pyEq : Value → Value → Bool
  | .int a, .int b => a = b
  | .str a, .str b => a = b
  | _, _ => false

/-- Python `<` on int/str values: defined within one type (numeric order for
ints, lexicographic order for strings), raises `TypeError` on mixed types. -/
def pyLt : Value → Value → Except PyErr Bool
  | .int a, .int b => .ok (decide (a < b))
  | .str a, .str b => .ok (decide (a < b))
  | _, _ => .error .typeError

/-- Python `<=` on int/str values; raises `TypeError` on mixed types. -/
def pyLe : Value → Value → Except PyErr Bool
  | .int a, .int b => .ok (decide (a ≤ b))
  | .str a, .str b => .ok (decide (a ≤ b))
  | _, _ => .error .typeError

/-- `Condition.evaluate(input_data)` from src/questionnaire/conditions.py.
`DefaultCondition.evaluate` returns `True` unconditionally.
`ComparisonCondition.evaluate` applies the Python comparison operator to
`(input_data, compare_to)`. Python `a > b` agrees with `b < a` on int/int and
str/str operands and raises `TypeError` on mixed operands either way (same for
`>=` versus `<=`), which is how the two greater-than cases are embedded. -/
def Condition.evaluate : Condition → Value → Except PyErr Bool
  | .default, _ => .ok true
  | .comparison op compare_to, input_data =>
    match op with
    | .equal => .ok (pyEq input_data compare_to)
    | .not_equal => .ok (!(pyEq input_data compare_to))
    | .less_than => pyLt input_data compare_to
    | .less_than_or_equal => pyLe input_data compare_to
    | .greater_than => pyLt compare_to input_data
    | .greater_than_or_equal => pyLe compare_to input_data

/-- `isinstance(condition, DefaultCondition)` as a Boolean test. -/
def Condition.isDefault : Condition → Bool
  | .default => true
  | _ => false

/-- The `Vertex` class from src/questionnaire/graph.py: stores identifier and
prompt; `__eq__`/`__hash__` use exactly the pair (identifier, prompt), which is
the derived structural equality. The ignored `choices` argument is omitted. -/
structure Vertex where
  identifier : Identifier
  prompt : String
deriving DecidableEq, Repr

/-- `RootedDirectedGraph.AdjacentVertex` dataclass from src/questionnaire/graph.py. -/
structure AdjacentVertex where
  vertex : Vertex
  condition : Condition
deriving DecidableEq, Repr

/-- First-match association lookup, the shallow embedding of Python dict
indexing for the insertion-ordered dicts used by networkx adjacency and by
`input_mapping` (keys are compared with `==`). -/
def assocFind {α : Type} [DecidableEq α] {β : Type} : List (α × β) → α → Option β
  | [], _ => none
  | (k, v) :: rest, k' => if k = k' then some v else assocFind rest k'

/-- Python dict assignment `m[k] = v`: overwrites in place if the key is
present (keeping its position), otherwise appends (insertion order). -/
def dictInsert : List (Identifier × Value) → Identifier → Value → List (Identifier × Value)
  | [], k, v => [(k, v)]
  | (k₀, v₀) :: rest, k, v =>
    if k₀ = k then (k₀, v) :: rest else (k₀, v₀) :: dictInsert rest k v

/-- Helper for `MultiDiGraph.add_edge`: within a source's neighbor dict,
append the new edge's condition under the destination (networkx allocates a
fresh integer key, so multi-edges to the same neighbor accumulate in
insertion order), adding the destination entry if it is new. -/
def addToNbrs : List (Vertex × List Condition) → Vertex → Condition → List (Vertex × List Condition)
  | [], d, c => [(d, [c])]
  | (n, cs) :: rest, d, c =>
    if n = d then (n, cs ++ [c]) :: rest else (n, cs) :: addToNbrs rest d c

/-- Helper for `MultiDiGraph.add_edge`: update the source's entry in the
adjacency map (the source is guaranteed present because `add_edge` inserts
both endpoints as nodes first; the `[]` case is unreachable there). -/
def setNbrs : List (Vertex × List (Vertex × List Condition)) → Vertex → Vertex → Condition →
    List (Vertex × List (Vertex × List Condition))
  | [], _, _, _ => []
  | (k, nbrs) :: rest, s, d, c =>
    if k = s then (k, addToNbrs nbrs d c) :: rest else (k, nbrs) :: setNbrs rest s d c

/-- The slice of `networkx.MultiDiGraph` that src/questionnaire/graph.py uses:
the successor adjacency structure `adj : node ↦ (neighbor ↦ edge conditions)`,
insertion-ordered at both levels. Node membership (`v in graph`,
`v in graph.adj`) is having an adjacency entry; every added node gets one.
Each edge's attribute dict carries `condition` (the derived `label` string is
never read back and is omitted). -/
structure MultiDiGraph where
  adj : List (Vertex × List (Vertex × List Condition))
deriving DecidableEq, Repr

/-- `networkx` `add_node`: no-op when the node is already present. -/
def MultiDiGraph.add_node (g : MultiDiGraph) (v : Vertex) : MultiDiGraph :=
  if (assocFind g.adj v).isSome then g else ⟨g.adj ++ [(v, [])]⟩

/-- `networkx` `MultiDiGraph.add_edge(u, v, condition=c)`: inserts `u` and `v`
as nodes if absent, then records the edge data under `u`'s adjacency. -/
def MultiDiGraph.add_edge (g : MultiDiGraph) (s d : Vertex) (c : Condition) : MultiDiGraph :=
  ⟨setNbrs ((g.add_node s).add_node d).adj s d c⟩

/-- The `RootedDirectedGraph` class from src/questionnaire/graph.py:
a networkx multigraph plus the `_root` attribute. -/
structure RootedDirectedGraph where
  graph : MultiDiGraph
  root : Option Vertex
deriving DecidableEq, Repr

/-- `RootedDirectedGraph.__init__`: empty multigraph, no root. -/
def RootedDirectedGraph.empty : RootedDirectedGraph := ⟨⟨[]⟩, none⟩

/-- `RootedDirectedGraph._check_and_set_root`: raises
`InvalidGraphState("graph already has a root")` when a root is set and is a
different vertex, otherwise (re-)assigns the root. Python compares with
`is not` (object identity); vertices with different field values are
necessarily distinct objects, so identity is embedded as structural
inequality. -/
def RootedDirectedGraph.check_and_set_root (g : RootedDirectedGraph) (v : Vertex) :
    Except PyErr RootedDirectedGraph :=
  match g.root with
  | some r =>
    if r = v then .ok ⟨g.graph, some v⟩
    else .error (.invalidGraphState "graph already has a root")
  | none => .ok ⟨g.graph, some v⟩

/-- `RootedDirectedGraph.add_vertex(v, root=...)`. Mutation is modelled by
returning the resulting graph; a raise returns the graph as mutated so far
together with the error. -/
def RootedDirectedGraph.add_vertex (g : RootedDirectedGraph) (v : Vertex) (root : Bool) :
    RootedDirectedGraph × Option PyErr :=
  match (if root then g.check_and_set_root v else .ok g) with
  | .error e => (g, some e)
  | .ok g₁ => (⟨g₁.graph.add_node v, g₁.root⟩, none)

/-- The duplicate-default guard of `add_edge`: `source in self._graph` and
some recorded outgoing edge of `source` has a `DefaultCondition` (a source
with no adjacency entry trivially has none). -/
def RootedDirectedGraph.hasDefaultOut (g : RootedDirectedGraph) (s : Vertex) : Bool :=
  match assocFind g.graph.adj s with
  | none => false
  | some nbrs => nbrs.any (fun p => p.2.any Condition.isDefault)

/-- `RootedDirectedGraph.add_edge(source, destination, condition, root=...)`:
root assignment first (when requested), then the duplicate-default check,
then the networkx edge insertion. Note the root assignment has already
mutated the graph when the duplicate-default check raises. -/
def RootedDirectedGraph.add_edge (g : RootedDirectedGraph) (source destination : Vertex)
    (condition : Condition) (root : Bool) : RootedDirectedGraph × Option PyErr :=
  match (if root then g.check_and_set_root source else .ok g) with
  | .error e => (g, some e)
  | .ok g₁ =>
    if condition.isDefault && g₁.hasDefaultOut source then
      (g₁, some (.invalidGraphState "vertex already contains a defaulted path"))
    else
      (⟨g₁.graph.add_edge source destination condition, g₁.root⟩, none)

/-- Flattening step of `get_adjacent`: for each neighbor, for each recorded
edge to it (in key order), one `AdjacentVertex`. -/
def adjFlatten : List (Vertex × List Condition) → List AdjacentVertex
  | [] => []
  | (n, cs) :: rest => cs.map (fun c => ⟨n, c⟩) ++ adjFlatten rest

/-- `RootedDirectedGraph.get_adjacent(v)`: empty for vertices without an
adjacency entry, otherwise the flattened (neighbor, condition) pairs. -/
def RootedDirectedGraph.get_adjacent (g : RootedDirectedGraph) (v : Vertex) :
    List AdjacentVertex :=
  match assocFind g.graph.adj v with
  | none => []
  | some nbrs => adjFlatten nbrs

/-- Module-level `evaluate(user_input, condition)` from src/questionnaire/graph.py. -/
def evaluate (user_input : Value) (condition : Condition) : Except PyErr Bool :=
  condition.evaluate user_input

/-- The loop body state of `find_path` from src/questionnaire/graph.py,
carrying `path_found` and `go_to` through the remaining edges. -/
def find_path_go (value : Value) : List AdjacentVertex → Bool → Option Vertex →
    Except PyErr (Option Vertex)
  | [], _, go_to => .ok go_to
  | v :: rest, path_found, go_to =>
    match evaluate value v.condition with
    | .error e => .error e
    | .ok result =>
      if result && path_found then .error (.invalidGraphState "ambiguous paths")
      else if result then find_path_go value rest true (some v.vertex)
      else find_path_go value rest path_found go_to

/-- `find_path(value, vertices)` from src/questionnaire/graph.py: scans all
edges, remembers the matching destination, and raises
`InvalidGraphState("ambiguous paths")` on a second match. -/
def find_path (value : Value) (vertices : List AdjacentVertex) : Except PyErr (Option Vertex) :=
  find_path_go value vertices false none

/-- Specification-side predicate: the edge's condition evaluates to `True`
(without raising) on the given answer. -/
def edgeMatches (value : Value) (av : AdjacentVertex) : Bool :=
  match evaluate value av.condition with
  | .ok true => true
  | _ => false

/-- Python `set.add` on the BFS visited set, modelled as a duplicate-free
list (only membership is ever observed). -/
def insertId (i : Identifier) (vs : List Identifier) : List Identifier :=
  if i ∈ vs then vs else vs ++ [i]

/-- `BFSIterator.__next__` from src/questionnaire/graph.py, as a step on the
mutable state `(queue, visited)`; `none` is `StopIteration`. The source pops
the head; if its identifier is already visited it calls `self.__next__()`
recursively, DISCARDING the returned vertex but keeping the state mutations
(and letting a `StopIteration` from the recursive call propagate), and then
falls through to re-mark, re-enqueue the popped vertex's neighbors, and
RE-RETURN the popped vertex. The embedding reproduces this faithfully. -/
def bfsNext (g : RootedDirectedGraph) :
    List Vertex → List Identifier → Option (Vertex × List Vertex × List Identifier)
  | [], _ => none
  | v :: q, visited =>
    if v.identifier ∈ visited then
      match bfsNext g q visited with
      | none => none
      | some (_, q', visited') =>
        some (v, q' ++ (g.get_adjacent v).map (fun av => av.vertex),
              insertId v.identifier visited')
    else
      some (v, q ++ (g.get_adjacent v).map (fun av => av.vertex),
            insertId v.identifier visited)

/-- Driving loop collecting the vertices yielded by `BFSIterator`, with
explicit fuel (each call yields at most one vertex, so any fuel at least the
number of `__next__` calls before `StopIteration` is exact). -/
def bfsRun (g : RootedDirectedGraph) : Nat → List Vertex → List Identifier → List Vertex
  | 0, _, _ => []
  | Nat.succ fuel, q, visited =>
    match bfsNext g q visited with
    | none => []
    | some (v, q', visited') => v :: bfsRun g fuel q' visited'

/-- `iter(BFSIterator(g))` followed by exhausting the iterator:
`__iter__` raises `InvalidGraphState("no root exists")` on a rootless graph,
otherwise seeds the queue with the root and the empty visited set. -/
def bfsList (g : RootedDirectedGraph) (fuel : Nat) : Except PyErr (List Vertex) :=
  match g.root with
  | none => .error (.invalidGraphState "no root exists")
  | some r => .ok (bfsRun g fuel [r] [])

/-- The override context from src/questionnaire/graph.py: a dict from
identifier to a per-vertex dict that may or may not carry an `auto_input`
value. An entry `(id, some v)` is `{id: {auto_input: v}}`; `(id, none)` is an
entry without `auto_input`. -/
abbrev ContextT : Type := List (Identifier × Option Value)

/-- `Prompter._context_supplied(identifier)`: the context's `auto_input` for
the identifier, if both are present. -/
def context_supplied (context : ContextT) (identifier : Identifier) : Option Value :=
  match assocFind context identifier with
  | some (some v) => some v
  | some none => none
  | none => none

/-- The `Prompter` dataclass from src/questionnaire/graph.py (its
`input_mapping` field is threaded explicitly, since `prompt` mutates it). -/
structure Prompter where
  vertex : Vertex
  context : ContextT
deriving DecidableEq

/-- `Prompter.prompt()`: take the context-supplied answer if available, else
ask the external input provider (`read_user_variable`, modelled as the
function `provider` from prompt text to answer), and record the answer in
`input_mapping` under the vertex's identifier. -/
def Prompter.prompt (p : Prompter) (provider : String → Value)
    (input_mapping : List (Identifier × Value)) : List (Identifier × Value) :=
  let gathered_input :=
    match context_supplied p.context p.vertex.identifier with
    | some v => v
    | none => provider p.vertex.prompt
  dictInsert input_mapping p.vertex.identifier gathered_input

/-- The mutable cursor of `PrompterIterator`: `current_vertex` and
`previous_vertex` (`current = none` encodes the post-terminal state in which
every further `__next__` raises `StopIteration`). -/
structure PrompterState where
  current : Option Vertex
  previous : Option Vertex
deriving DecidableEq, Repr

/-- `PrompterIterator.__next__` from src/questionnaire/graph.py: on a
non-first step it looks up the previous vertex's recorded answer in
`input_mapping` (raising `KeyError` if absent), resolves the next vertex with
`find_path` (propagating its errors), and stops when resolution yields no
vertex; the yielded item is a `Prompter` for the new current vertex.
`.ok (none, _)` is `StopIteration`. -/
def prompterNext (g : RootedDirectedGraph) (context : ContextT)
    (input_mapping : List (Identifier × Value)) (s : PrompterState) :
    Except PyErr (Option Prompter × PrompterState) :=
  match s.current with
  | none => .ok (none, s)
  | some cur =>
    match s.previous with
    | none => .ok (some ⟨cur, context⟩, ⟨some cur, some cur⟩)
    | some prev =>
      match assocFind input_mapping prev.identifier with
      | none => .error .keyError
      | some input_data =>
        match find_path input_data (g.get_adjacent prev) with
        | .error e => .error e
        | .ok none => .ok (none, ⟨none, some prev⟩)
        | .ok (some nxt) => .ok (some ⟨nxt, context⟩, ⟨some nxt, some nxt⟩)

/-- The consumer loop `for prompter in iterator: prompter.prompt()`, with
explicit fuel; returns the final `input_mapping` on clean `StopIteration`
(`none` only on fuel exhaustion, which sufficient fuel rules out). -/
def runPrompter (g : RootedDirectedGraph) (context : ContextT) (provider : String → Value) :
    Nat → List (Identifier × Value) → PrompterState →
    Except PyErr (Option (List (Identifier × Value)))
  | 0, _, _ => .ok none
  | Nat.succ fuel, input_mapping, s =>
    match prompterNext g context input_mapping s with
    | .error e => .error e
    | .ok (none, _) => .ok (some input_mapping)
    | .ok (some p, s') =>
      runPrompter g context provider fuel (p.prompt provider input_mapping) s'

/-- A whole input-driven walk: `PrompterIterator.__iter__` (which raises
`InvalidGraphState("no root exists")` on a rootless graph and otherwise
starts at the root with no previous vertex and an empty `input_mapping`)
followed by the consumer loop. -/
def runTraversal (g : RootedDirectedGraph) (context : ContextT)
    (provider : String → Value) (fuel : Nat) :
    Except PyErr (Option (List (Identifier × Value))) :=
  match g.root with
  | none => .error (.invalidGraphState "no root exists")
  | some r => runPrompter g context provider fuel [] ⟨some r, none⟩

/-! ## Concrete sample data used by witnesses and counterexamples -/

/-- Sample vertex B, destination of the `(=, "a")` edge. -/
def vB : Vertex := ⟨.str "B", "question B"⟩

/-- Sample vertex C, destination of the `(=, "b")` edge. -/
def vC : Vertex := ⟨.str "C", "question C"⟩

/-- Sample vertex D, destination of the AlwaysTrue edge. -/
def vD : Vertex := ⟨.str "D", "question D"⟩

/-- The edge list `[(=, "a")→B, (=, "b")→C, AlwaysTrue→D]`. -/
def sampleEdges : List AdjacentVertex :=
  [⟨vB, .comparison .equal (.str "a")⟩,
   ⟨vC, .comparison .equal (.str "b")⟩,
   ⟨vD, .default⟩]

/-- Chain graph vertices: root. -/
def rootV : Vertex := ⟨.str "root", "root question"⟩

/-- Chain graph vertices: mid. -/
def midV : Vertex := ⟨.str "mid", "mid question"⟩

/-- Chain graph vertices: leaf. -/
def leafV : Vertex := ⟨.str "leaf", "leaf question"⟩

/-- The three-vertex linear chain root → mid → leaf, each edge AlwaysTrue,
built through `add_edge` as a loader would. -/
def chainG : RootedDirectedGraph :=
  ((RootedDirectedGraph.empty.add_edge rootV midV .default true).1.add_edge
    midV leafV .default false).1

/-- Diamond-with-tail vertices: A. -/
def vA2 : Vertex := ⟨.str "A", "A?"⟩

/-- Diamond-with-tail vertices: B. -/
def vB2 : Vertex := ⟨.str "Bd", "Bd?"⟩

/-- Diamond-with-tail vertices: C (two predecessors). -/
def vC2 : Vertex := ⟨.str "Cd", "Cd?"⟩

/-- Diamond-with-tail vertices: D (successor of C). -/
def vD2 : Vertex := ⟨.str "Dd", "Dd?"⟩

/-- Diamond-with-tail root. -/
def vR2 : Vertex := ⟨.str "Rd", "Rd?"⟩

/-- A non-default guard used to build multi-out-edge vertices without
tripping the duplicate-default check (BFS never evaluates conditions). -/
def cGuard : Condition := .comparison .equal (.str "y")

/-- The diamond with a tail: root → A, root → B, A → C, B → C, C → D,
built through `add_edge`. -/
def diamondTailG : RootedDirectedGraph :=
  (((((RootedDirectedGraph.empty.add_edge vR2 vA2 cGuard true).1.add_edge
    vR2 vB2 cGuard false).1.add_edge
    vA2 vC2 cGuard false).1.add_edge
    vB2 vC2 cGuard false).1.add_edge
    vC2 vD2 cGuard false).1

/-- The plain diamond root → A, root → B, A → C, B → C (no tail). -/
def diamondG : RootedDirectedGraph :=
  ((((RootedDirectedGraph.empty.add_edge vR2 vA2 cGuard true).1.add_edge
    vR2 vB2 cGuard false).1.add_edge
    vA2 vC2 cGuard false).1.add_edge
    vB2 vC2 cGuard false).1

/-- Source vertex for the duplicate-default counterexample. -/
def sV : Vertex := ⟨.str "s", "s?"⟩

/-- First default-edge destination for the duplicate-default counterexample. -/
def dV1 : Vertex := ⟨.str "d1", "d1?"⟩

/-- Second default-edge destination for the duplicate-default counterexample. -/
def dV2 : Vertex := ⟨.str "d2", "d2?"⟩

/-- A rootless graph in which `sV` already has a default outgoing edge. -/
def g5 : RootedDirectedGraph :=
  (RootedDirectedGraph.empty.add_edge sV dV1 .default false).1

/-- A graph whose root is already set to `rootV`. -/
def g6 : RootedDirectedGraph :=
  (RootedDirectedGraph.empty.add_vertex rootV true).1

/-! ## Helper lemmas -/

lemma find_path_go_found (value : Value) (l : List AdjacentVertex)
    (h : ∀ av ∈ l, (evaluate value av.condition).isOk = true) (w : Option Vertex) :
    find_path_go value l true w =
      if l.filter (edgeMatches value) = [] then .ok w
      else .error (.invalidGraphState "ambiguous paths") := by
  induction l generalizing w with
  | nil => simp [find_path_go]
  | cons a l ih =>
    have ha := h a (List.mem_cons_self a l)
    have hrest : ∀ av ∈ l, (evaluate value av.condition).isOk = true :=
      fun av hav => h av (List.mem_cons_of_mem _ hav)
    cases heval : evaluate value a.condition with
    | error e => rw [heval] at ha; simp [Except.isOk, Except.toBool] at ha
    | ok b =>
      cases b with
      | true =>
        have hm : edgeMatches value a = true := by simp [edgeMatches, heval]
        simp [find_path_go, heval, List.filter_cons, hm]
      | false =>
        have hm : edgeMatches value a = false := by simp [edgeMatches, heval]
        simp [find_path_go, heval, List.filter_cons, hm, ih hrest]

lemma find_path_spec (value : Value) (l : List AdjacentVertex)
    (h : ∀ av ∈ l, (evaluate value av.condition).isOk = true) :
    find_path value l =
      match l.filter (edgeMatches value) with
      | [] => .ok none
      | [av] => .ok (some av.vertex)
      | _ :: _ :: _ => .error (.invalidGraphState "ambiguous paths") := by
  show find_path_go value l false none = _
  generalize hw : (none : Option Vertex) = w
  clear hw
  induction l generalizing w with
  | nil => simp [find_path_go]
  | cons a l ih =>
    have ha := h a (List.mem_cons_self a l)
    have hrest : ∀ av ∈ l, (evaluate value av.condition).isOk = true :=
      fun av hav => h av (List.mem_cons_of_mem _ hav)
    cases heval : evaluate value a.condition with
    | error e => rw [heval] at ha; simp [Except.isOk, Except.toBool] at ha
    | ok b =>
      cases b with
      | true =>
        have hm : edgeMatches value a = true := by simp [edgeMatches, heval]
        rw [List.filter_cons_of_pos hm]
        have hfound := find_path_go_found value l hrest (some a.vertex)
        cases hfl : l.filter (edgeMatches value) with
        | nil =>
          rw [hfl] at hfound
          simp only [find_path_go, heval, Bool.and_false, if_neg, Bool.false_eq_true,
            not_false_eq_true, if_pos]
          simpa using hfound
        | cons c cs =>
          rw [hfl] at hfound
          simp only [find_path_go, heval, Bool.and_false, Bool.false_eq_true,
            not_false_eq_true, if_neg, if_pos]
          simpa using hfound
      | false =>
        have hm : edgeMatches value a = false := by simp [edgeMatches, heval]
        rw [List.filter_cons_of_neg (by simp [hm])]
        simpa [find_path_go, heval] using ih hrest w

lemma assocFind_append_none {α β : Type} [DecidableEq α] (l₁ l₂ : List (α × β)) (k : α)
    (h : assocFind l₁ k = none) : assocFind (l₁ ++ l₂) k = assocFind l₂ k := by
  induction l₁ with
  | nil => simp
  | cons p l ih =>
    obtain ⟨k₀, v₀⟩ := p
    by_cases hk : k₀ = k
    · simp [assocFind, hk] at h
    · simp only [assocFind, hk, if_false, List.cons_append] at h ⊢
      exact ih h

lemma assocFind_append_some {α β : Type} [DecidableEq α] (l₁ l₂ : List (α × β)) (k : α)
    (w : β) (h : assocFind l₁ k = some w) : assocFind (l₁ ++ l₂) k = some w := by
  induction l₁ with
  | nil => simp [assocFind] at h
  | cons p l ih =>
    obtain ⟨k₀, v₀⟩ := p
    by_cases hk : k₀ = k
    · simp only [assocFind, hk, if_true, List.cons_append] at h ⊢
      exact h
    · simp only [assocFind, hk, if_false, List.cons_append] at h ⊢
      exact ih h

lemma assocFind_setNbrs_self (adj : List (Vertex × List (Vertex × List Condition)))
    (s d : Vertex) (c : Condition) (nbrs : List (Vertex × List Condition))
    (h : assocFind adj s = some nbrs) :
    assocFind (setNbrs adj s d c) s = some (addToNbrs nbrs d c) := by
  induction adj with
  | nil => simp [assocFind] at h
  | cons p l ih =>
    obtain ⟨k, ns⟩ := p
    by_cases hk : k = s
    · subst hk
      simp only [assocFind, if_pos rfl] at h
      obtain rfl : ns = nbrs := Option.some.inj h
      simp [setNbrs, assocFind]
    · simp only [assocFind, hk, if_false] at h
      simp only [setNbrs, hk, if_false, assocFind]
      exact ih h

lemma assocFind_setNbrs_isSome (adj : List (Vertex × List (Vertex × List Condition)))
    (s d : Vertex) (c : Condition) (k : Vertex) :
    (assocFind (setNbrs adj s d c) k).isSome = (assocFind adj k).isSome := by
  induction adj with
  | nil => simp [setNbrs]
  | cons p l ih =>
    obtain ⟨k₀, ns⟩ := p
    by_cases hks : k₀ = s
    · subst hks
      by_cases hkk : k₀ = k <;> simp [setNbrs, assocFind, hkk]
    · by_cases hkk : k₀ = k
      · subst hkk
        simp [setNbrs, assocFind, hks]
      · simp [setNbrs, assocFind, hks, hkk, ih]

lemma multi_add_edge_fresh (G : MultiDiGraph) (s d : Vertex) (c : Condition)
    (hs : assocFind G.adj s = none) (hd : assocFind G.adj d = none) :
    assocFind (G.add_edge s d c).adj s = some [(d, [c])] ∧
    (assocFind (G.add_edge s d c).adj d).isSome = true := by
  have hstep : ((G.add_node s).add_node d).adj =
      if d = s then G.adj ++ [(s, [])] else G.adj ++ [(s, [])] ++ [(d, [])] := by
    by_cases hds : d = s
    · subst hds
      have h1 : assocFind (G.adj ++ [(d, [])]) d = some [] := by
        rw [assocFind_append_none _ _ _ hs]; simp [assocFind]
      simp [MultiDiGraph.add_node, hs, h1]
    · have h1 : assocFind (G.adj ++ [(s, [])]) d = none := by
        rw [assocFind_append_none _ _ _ hd]; simp [assocFind, Ne.symm hds]
      simp [MultiDiGraph.add_node, hs, h1, hds]
  have h2s : assocFind ((G.add_node s).add_node d).adj s = some [] := by
    rw [hstep]
    by_cases hds : d = s
    · rw [if_pos hds, assocFind_append_none _ _ _ hs]; simp [assocFind]
    · rw [if_neg hds, assocFind_append_some]
      rw [assocFind_append_none _ _ _ hs]; simp [assocFind]
  constructor
  · show assocFind (setNbrs ((G.add_node s).add_node d).adj s d c) s = _
    rw [assocFind_setNbrs_self _ _ _ _ _ h2s]
    simp [addToNbrs]
  · show (assocFind (setNbrs ((G.add_node s).add_node d).adj s d c) d).isSome = true
    rw [assocFind_setNbrs_isSome, hstep]
    by_cases hds : d = s
    · subst hds
      rw [if_pos rfl, assocFind_append_none _ _ _ hs]
      simp [assocFind]
    · rw [if_neg hds, List.append_assoc, assocFind_append_none _ _ _ hd]
      simp [assocFind, Ne.symm hds]

/-! ## Claim theorems -/

/-- C1: for a vertex with outgoing edges `[(=, "a")→B, (=, "b")→C, AlwaysTrue→D]`,
the code does NOT implement the claimed catch-all semantics: because
`DefaultCondition.evaluate` returns `True` on every answer, answers `"a"` and
`"b"` make two edges match and `find_path` raises
`InvalidGraphState("ambiguous paths")` instead of returning B resp. C; only a
non-matching answer such as `"z"` reaches D. This theorem evaluates the code
at the claim's inputs, exhibiting the divergence. -/
theorem default_edge_not_catchall :
    find_path (.str "a") sampleEdges = .error (.invalidGraphState "ambiguous paths") ∧
    find_path (.str "b") sampleEdges = .error (.invalidGraphState "ambiguous paths") ∧
    find_path (.str "z") sampleEdges = .ok (some vD) :=
  ⟨rfl, rfl, rfl⟩

/-- C2: whenever every outgoing edge's condition evaluates without raising,
`find_path` returns the destination of the unique matching edge when exactly
one edge matches, `none` when no edge matches, and raises
`InvalidGraphState("ambiguous paths")` when two or more edges match. -/
theorem find_path_trichotomy (value : Value) (l : List AdjacentVertex)
    (h : ∀ av ∈ l, (evaluate value av.condition).isOk = true) :
    find_path value l =
      match l.filter (edgeMatches value) with
      | [] => .ok none
      | [av] => .ok (some av.vertex)
      | _ :: _ :: _ => .error (.invalidGraphState "ambiguous paths") :=
  find_path_spec value l h

/-- Witness for C2 at a concrete input: with edges `[(=, "a")→B, (=, "b")→C]`
and answer `"a"`, exactly one edge matches and `find_path` returns `B`. -/
theorem find_path_trichotomy_witness :
    (∀ av ∈ [(⟨vB, .comparison .equal (.str "a")⟩ : AdjacentVertex),
             ⟨vC, .comparison .equal (.str "b")⟩],
       (evaluate (.str "a") av.condition).isOk = true) ∧
    find_path (.str "a")
      [⟨vB, .comparison .equal (.str "a")⟩, ⟨vC, .comparison .equal (.str "b")⟩] =
      .ok (some vB) :=
  ⟨by decide,
   find_path_trichotomy (.str "a")
     [⟨vB, .comparison .equal (.str "a")⟩, ⟨vC, .comparison .equal (.str "b")⟩]
     (by decide)⟩

/-- Counterexample to C3: on the three-vertex chain root → mid → leaf (each
edge AlwaysTrue) with the scripted provider answering `"x"` everywhere, the
complete walk records an answer for the LEAF as well — the leaf is yielded and
prompted before terminal detection — so the result is not the claimed
two-entry mapping `{root: "x", mid: "x"}`. -/
theorem chain_traversal_not_two_entries :
    runTraversal chainG [] (fun _ => .str "x") 10 =
      .ok (some [(.str "root", .str "x"), (.str "mid", .str "x"), (.str "leaf", .str "x")]) ∧
    ([((.str "root" : Identifier), (.str "x" : Value)), (.str "mid", .str "x"),
      (.str "leaf", .str "x")] ≠
     [((.str "root" : Identifier), (.str "x" : Value)), (.str "mid", .str "x")]) :=
  ⟨rfl, by decide⟩

/-- C3 (amended): the complete input-driven traversal of the chain
root → mid → leaf with answer `"x"` at every visited vertex produces exactly
the insertion-ordered mapping `{root: "x", mid: "x", leaf: "x"}` — the leaf's
answer is recorded too, because the leaf is yielded and prompted and only the
following `__next__` call detects that it is terminal. -/
theorem chain_traversal_result :
    runTraversal chainG [] (fun _ => .str "x") 10 =
      .ok (some [(.str "root", .str "x"), (.str "mid", .str "x"), (.str "leaf", .str "x")]) :=
  rfl

/-- C4: evaluation of breadth-first enumeration at a failing input. Over the
diamond-with-tail graph (root → A, root → B, A → C, B → C, C → D) the code
yields `[root, A, B, C, C]`: the vertex C is yielded TWICE (the recursive
`self.__next__()` on an already-visited dequeued vertex discards its result
and falls through to re-yield the visited vertex) and D — though reachable and
even processed inside the discarded recursive call — is never yielded. Over
the plain diamond the claimed behaviour happens to hold (C yielded once),
because there the recursive call raises `StopIteration`. -/
theorem bfs_revisit_defect :
    bfsList diamondTailG 10 = .ok [vR2, vA2, vB2, vC2, vC2] ∧
    ([vR2, vA2, vB2, vC2, vC2].count vC2 = 2 ∧ vD2 ∉ [vR2, vA2, vB2, vC2, vC2]) ∧
    bfsList diamondG 10 = .ok [vR2, vA2, vB2, vC2] :=
  ⟨rfl, by decide, rfl⟩

/-- Counterexample to C5: on a rootless graph where `sV` already has an
AlwaysTrue outgoing edge, `add_edge(sV, dV2, DefaultCondition, root=True)`
does fail with the duplicate-default error, but the failed call has already
assigned the root (the root assignment precedes the duplicate-default check),
so the graph is NOT unchanged: its root goes from `none` to `some sV`. -/
theorem add_edge_duplicate_default_mutates_root :
    (g5.add_edge sV dV2 .default true).2 =
      some (.invalidGraphState "vertex already contains a defaulted path") ∧
    g5.root = none ∧
    (g5.add_edge sV dV2 .default true).1.root = some sV :=
  ⟨rfl, rfl, rfl⟩

/-- C5 (amended): for every graph and every source that already has an
AlwaysTrue outgoing edge, `add_edge` with a second AlwaysTrue condition and
`root=False` fails with the duplicate-default `InvalidGraphState` error and
returns the graph completely unchanged (no partial edge inserted, root
untouched); only a call that additionally requests root assignment can alter
the (previously unset) root before failing. -/
theorem add_edge_duplicate_default (g : RootedDirectedGraph) (s d : Vertex)
    (h : g.hasDefaultOut s = true) :
    g.add_edge s d .default false =
      (g, some (.invalidGraphState "vertex already contains a defaulted path")) := by
  simp [RootedDirectedGraph.add_edge, Condition.isDefault, h]

/-- Witness for C5's amended theorem: concrete graph `g5` whose source `sV`
has a default outgoing edge. -/
theorem add_edge_duplicate_default_witness :
    g5.hasDefaultOut sV = true ∧
    g5.add_edge sV dV2 .default false =
      (g5, some (.invalidGraphState "vertex already contains a defaulted path")) :=
  ⟨by decide, add_edge_duplicate_default g5 sV dV2 (by decide)⟩

/-- C6: once the root is set to `r`, root assignment of a different vertex
`v` — through `add_vertex(v, root=True)` or `add_edge(v, d, c, root=True)` —
fails with `InvalidGraphState("graph already has a root")` and leaves the
graph unchanged, while re-assigning `r` itself is idempotent:
`_check_and_set_root` succeeds and returns the graph with the same root, and
`add_vertex(r, root=True)` succeeds with no error. -/
theorem root_assignment_conflict_and_idempotent (g : RootedDirectedGraph)
    (r v d : Vertex) (c : Condition) (h : g.root = some r) (hv : v ≠ r) :
    g.add_vertex v true = (g, some (.invalidGraphState "graph already has a root")) ∧
    g.add_edge v d c true = (g, some (.invalidGraphState "graph already has a root")) ∧
    g.check_and_set_root r = .ok g ∧
    g.add_vertex r true = (⟨g.graph.add_node r, some r⟩, none) := by
  obtain ⟨gg, groot⟩ := g
  simp only at h
  subst h
  have hrv : ¬(r = v) := fun he => hv he.symm
  refine ⟨?_, ?_, ?_, ?_⟩
  · simp [RootedDirectedGraph.add_vertex, RootedDirectedGraph.check_and_set_root, hrv]
  · simp [RootedDirectedGraph.add_edge, RootedDirectedGraph.check_and_set_root, hrv]
  · simp [RootedDirectedGraph.check_and_set_root]
  · simp [RootedDirectedGraph.add_vertex, RootedDirectedGraph.check_and_set_root]

/-- Witness for C6 at a concrete input: `g6` has root `rootV`; assigning
`midV` as root fails both ways with the graph unchanged, and re-assigning
`rootV` is error-free. -/
theorem root_assignment_witness :
    (g6.root = some rootV ∧ midV ≠ rootV) ∧
    (g6.add_vertex midV true =
      (g6, some (.invalidGraphState "graph already has a root")) ∧
     g6.add_edge midV leafV .default true =
      (g6, some (.invalidGraphState "graph already has a root")) ∧
     g6.check_and_set_root rootV = .ok g6 ∧
     g6.add_vertex rootV true = (⟨g6.graph.add_node rootV, some rootV⟩, none)) :=
  ⟨⟨rfl, by decide⟩,
   root_assignment_conflict_and_idempotent g6 rootV midV leafV .default rfl (by decide)⟩

/-- Counterexample to C7: a mixed-type comparison with operator `=` does NOT
raise — `ComparisonCondition(EQUAL, 5).evaluate("a")` silently returns
`False` (Python `==` across types never raises), contradicting the claim that
all six operators fail with a TypeMismatch error on incomparable types. -/
theorem comparison_mixed_equal_silent :
    Condition.evaluate (.comparison .equal (.int 5)) (.str "a") = .ok false ∧
    Condition.evaluate (.comparison .equal (.int 5)) (.str "a") ≠ .error .typeError :=
  ⟨rfl, fun he => Except.noConfusion he⟩

/-- C7 (amended): for an answer and operand of incomparable types (string
versus int, in either orientation), the four ordering operators <, ≤, >, ≥
fail with the type error, while = silently returns `False` and ≠ silently
returns `True`. -/
theorem comparison_mixed_types (n : Int) (s : String) :
    Condition.evaluate (.comparison .less_than (.int n)) (.str s) = .error .typeError ∧
    Condition.evaluate (.comparison .less_than_or_equal (.int n)) (.str s) = .error .typeError ∧
    Condition.evaluate (.comparison .greater_than (.int n)) (.str s) = .error .typeError ∧
    Condition.evaluate (.comparison .greater_than_or_equal (.int n)) (.str s) = .error .typeError ∧
    Condition.evaluate (.comparison .equal (.int n)) (.str s) = .ok false ∧
    Condition.evaluate (.comparison .not_equal (.int n)) (.str s) = .ok true ∧
    Condition.evaluate (.comparison .less_than (.str s)) (.int n) = .error .typeError ∧
    Condition.evaluate (.comparison .less_than_or_equal (.str s)) (.int n) = .error .typeError ∧
    Condition.evaluate (.comparison .greater_than (.str s)) (.int n) = .error .typeError ∧
    Condition.evaluate (.comparison .greater_than_or_equal (.str s)) (.int n) = .error .typeError ∧
    Condition.evaluate (.comparison .equal (.str s)) (.int n) = .ok false ∧
    Condition.evaluate (.comparison .not_equal (.str s)) (.int n) = .ok true :=
  ⟨rfl, rfl, rfl, rfl, rfl, rfl, rfl, rfl, rfl, rfl, rfl, rfl⟩

/-- C8: when every edge's condition evaluates without raising on the answer,
`find_path` is invariant under any permutation of the edge list (in
particular, when exactly one edge matches, every ordering returns the same
destination), and whenever two or more edges match, both orderings detect the
ambiguity and fail — the scan does not stop at the first match, so a second
matching edge is found regardless of its position. -/
theorem find_path_order_independent (value : Value) (l₁ l₂ : List AdjacentVertex)
    (h : ∀ av ∈ l₁, (evaluate value av.condition).isOk = true)
    (hp : l₁.Perm l₂) :
    find_path value l₁ = find_path value l₂ ∧
    (2 ≤ (l₁.filter (edgeMatches value)).length →
      find_path value l₁ = .error (.invalidGraphState "ambiguous paths") ∧
      find_path value l₂ = .error (.invalidGraphState "ambiguous paths")) := by
  have h₂ : ∀ av ∈ l₂, (evaluate value av.condition).isOk = true :=
    fun av hav => h av (hp.mem_iff.mpr hav)
  have hc₁ := find_path_spec value l₁ h
  have hc₂ := find_path_spec value l₂ h₂
  have hpf : (l₁.filter (edgeMatches value)).Perm (l₂.filter (edgeMatches value)) :=
    hp.filter _
  cases hf₁ : l₁.filter (edgeMatches value) with
  | nil =>
    have hf₂ : l₂.filter (edgeMatches value) = [] := by
      rw [hf₁] at hpf
      exact hpf.symm.eq_nil
    rw [hf₁] at hc₁
    rw [hf₂] at hc₂
    refine ⟨hc₁.trans hc₂.symm, ?_⟩
    intro h2
    simp at h2
  | cons a as =>
    cases as with
    | nil =>
      have hf₂ : l₂.filter (edgeMatches value) = [a] := by
        rw [hf₁] at hpf
        exact List.perm_singleton.mp hpf.symm
      rw [hf₁] at hc₁
      rw [hf₂] at hc₂
      refine ⟨hc₁.trans hc₂.symm, ?_⟩
      intro h2
      simp at h2
    | cons b bs =>
      rw [hf₁] at hc₁
      have hlen := hpf.length_eq
      rw [hf₁] at hlen
      cases hf₂ : l₂.filter (edgeMatches value) with
      | nil =>
        rw [hf₂] at hlen
        simp at hlen
      | cons e es =>
        cases es with
        | nil =>
          rw [hf₂] at hlen
          simp at hlen
        | cons e' es' =>
          rw [hf₂] at hc₂
          exact ⟨hc₁.trans hc₂.symm, fun _ => ⟨hc₁, hc₂⟩⟩

/-- Witness for C8 at a concrete input: the two-edge list
`[(=, "a")→B, (=, "b")→C]` and its reversal both resolve answer `"a"` to `B`. -/
theorem find_path_order_independent_witness :
    ((∀ av ∈ [(⟨vB, .comparison .equal (.str "a")⟩ : AdjacentVertex),
              ⟨vC, .comparison .equal (.str "b")⟩],
        (evaluate (.str "a") av.condition).isOk = true) ∧
     ([(⟨vB, .comparison .equal (.str "a")⟩ : AdjacentVertex),
       ⟨vC, .comparison .equal (.str "b")⟩].Perm
      [⟨vC, .comparison .equal (.str "b")⟩, ⟨vB, .comparison .equal (.str "a")⟩])) ∧
    find_path (.str "a")
      [⟨vB, .comparison .equal (.str "a")⟩, ⟨vC, .comparison .equal (.str "b")⟩] =
    find_path (.str "a")
      [⟨vC, .comparison .equal (.str "b")⟩, ⟨vB, .comparison .equal (.str "a")⟩] :=
  ⟨⟨by decide, List.Perm.swap _ _ _⟩,
   (find_path_order_independent (.str "a")
     [⟨vB, .comparison .equal (.str "a")⟩, ⟨vC, .comparison .equal (.str "b")⟩]
     [⟨vC, .comparison .equal (.str "b")⟩, ⟨vB, .comparison .equal (.str "a")⟩]
     (by decide) (List.Perm.swap _ _ _)).1⟩

/-- C9: `add_edge` does not require its endpoints to have been added before —
for any graph and vertices `s`, `d` not yet in the graph, the call succeeds
(no error), both endpoints become graph nodes, and `get_adjacent s` reports
exactly the new (destination, condition) pair. -/
theorem add_edge_inserts_endpoints (g : RootedDirectedGraph) (s d : Vertex) (c : Condition)
    (hs : assocFind g.graph.adj s = none) (hd : assocFind g.graph.adj d = none) :
    (g.add_edge s d c false).2 = none ∧
    (assocFind (g.add_edge s d c false).1.graph.adj s).isSome = true ∧
    (assocFind (g.add_edge s d c false).1.graph.adj d).isSome = true ∧
    (g.add_edge s d c false).1.get_adjacent s = [⟨d, c⟩] := by
  have hnd : g.hasDefaultOut s = false := by
    simp [RootedDirectedGraph.hasDefaultOut, hs]
  have hred : g.add_edge s d c false = (⟨g.graph.add_edge s d c, g.root⟩, none) := by
    simp [RootedDirectedGraph.add_edge, hnd]
  obtain ⟨hfs, hfd⟩ := multi_add_edge_fresh g.graph s d c hs hd
  rw [hred]
  refine ⟨rfl, ?_, ?_, ?_⟩
  · simp [hfs]
  · simpa using hfd
  · simp [RootedDirectedGraph.get_adjacent, hfs, adjFlatten]

/-- Witness for C9 at a concrete input: adding an edge between two vertices
never added to the empty graph. -/
theorem add_edge_inserts_endpoints_witness :
    (assocFind RootedDirectedGraph.empty.graph.adj sV = none ∧
     assocFind RootedDirectedGraph.empty.graph.adj dV1 = none) ∧
    ((RootedDirectedGraph.empty.add_edge sV dV1 .default false).2 = none ∧
     (assocFind (RootedDirectedGraph.empty.add_edge sV dV1 .default false).1.graph.adj
        sV).isSome = true ∧
     (assocFind (RootedDirectedGraph.empty.add_edge sV dV1 .default false).1.graph.adj
        dV1).isSome = true ∧
     (RootedDirectedGraph.empty.add_edge sV dV1 .default false).1.get_adjacent sV =
       [⟨dV1, .default⟩]) :=
  ⟨⟨rfl, rfl⟩, add_edge_inserts_endpoints RootedDirectedGraph.empty sV dV1 .default rfl rfl⟩

/-- C10: advancing `PrompterIterator.__next__` past a non-root vertex with no
recorded answer for the previous vertex's identifier fails with `KeyError`
(from the `input_mapping` subscript), rather than treating the vertex as
terminal or raising a clean `StopIteration`. -/
theorem prompter_next_missing_answer (g : RootedDirectedGraph) (context : ContextT)
    (m : List (Identifier × Value)) (s : PrompterState) (cur prev : Vertex)
    (hc : s.current = some cur) (hp : s.previous = some prev)
    (hm : assocFind m prev.identifier = none) :
    prompterNext g context m s = .error .keyError := by
  obtain ⟨scur, sprev⟩ := s
  obtain rfl : scur = some cur := hc
  obtain rfl : sprev = some prev := hp
  simp [prompterNext, hm]

/-- Witness for C10 at a concrete input: the chain graph's iterator, sitting
at `mid` with previous vertex `root`, advanced with an empty `input_mapping`. -/
theorem prompter_next_missing_answer_witness :
    assocFind ([] : List (Identifier × Value)) rootV.identifier = none ∧
    prompterNext chainG [] [] ⟨some midV, some rootV⟩ = .error .keyError :=
  ⟨rfl, prompter_next_missing_answer chainG [] [] ⟨some midV, some rootV⟩ midV rootV
    rfl rfl rfl⟩

end Questionnaire
